import Mathlib

/-!
# FTransport — verification of the Transfer Orchestration Engine specification

Shallow embedding of the FTransport repository (a data-migration platform:
React/TypeScript frontend under `src/frontend`, plus deployment scripts).
The frontend data model (`src/frontend/src/types/index.ts`), the transfer
context reducer (`TransferContext.tsx`), the cancel guard and file-size
formatter (`TransferDetail.tsx`), and the transfer creation form
(`TransferForm.tsx`) are embedded directly from the source.  The backend
core (Transfer Orchestrator / Stage Executor / Progress Aggregator / Event
Broadcaster, `backend/app/workflows.py`) is not present in the repository
snapshot; those parts are modelled from the specification, as marked on
each definition.

JavaScript numbers are modelled as `ℚ` (all arithmetic performed by the
embedded code — divisions by 1024, `Math.round`, comparisons — is exact in
IEEE-754 doubles on the integer inputs considered, so the rational model is
faithful); counts are `ℕ`; optional fields are `Option`.
-/

namespace FTransport

/-- `DriveType` enumeration from `src/frontend/src/types/index.ts`. -/
inductive DriveType
  | google_drive
  | onedrive
  | dropbox
deriving DecidableEq

/-- `TransferMode` enumeration from `src/frontend/src/types/index.ts`. -/
inductive TransferMode
  | direct_to_notebooklm
  | via_google_drive
deriving DecidableEq

/-- `TransferStatus` enumeration from `src/frontend/src/types/index.ts`:
lifecycle states of a job. -/
inductive TransferStatus
  | pending
  | scanning
  | transferring
  | uploading
  | completed
  | failed
  | cancelled
deriving DecidableEq

/-- `Transfer` interface from `src/frontend/src/types/index.ts`. -/
structure Transfer where
  id : String
  source_url : String
  drive_type : DriveType
  transfer_mode : TransferMode
  status : TransferStatus
  total_files : ℕ
  files_completed : ℕ
  current_file_name : Option String
  current_file_progress : ℚ
  overall_progress : ℚ
  landing_zone_folder_id : Option String
  notebooklm_notebook_id : Option String
  error_message : Option String
  created_at : String
  started_at : Option String
  completed_at : Option String
deriving DecidableEq

/-- Terminal lifecycle states per spec §4.1: `COMPLETED`, `FAILED`,
`CANCELLED` (also the set used by `hasCompletedTransfers` in
`Dashboard.tsx`). -/
def TransferStatus.isTerminal (s : TransferStatus) : Bool :=
  [TransferStatus.completed, TransferStatus.failed, TransferStatus.cancelled].contains s

/-- `canCancel` from `TransferDetail.tsx` (src/unnamed/part_001, line 321):
`[PENDING, SCANNING, TRANSFERRING, UPLOADING].includes(transfer.status)`. -/
def canCancel (status : TransferStatus) : Bool :=
  [TransferStatus.pending, TransferStatus.scanning, TransferStatus.transferring,
    TransferStatus.uploading].contains status

/-! ## Transfer context reducer (`TransferContext.tsx`) -/

/-- `TransferState` from `TransferContext.tsx` (in
`src/frontend/src/hooks/useWebSocket.ts`, lines 63-68). -/
structure TransferState where
  transfers : List Transfer
  activeTransfer : Option Transfer
  loading : Bool
  error : Option String
deriving DecidableEq

/-- `TransferAction` union from `TransferContext.tsx` (lines 70-76). -/
inductive TransferAction
  | setLoading (b : Bool)
  | setError (e : Option String)
  | setTransfers (ts : List Transfer)
  | addTransfer (t : Transfer)
  | updateTransfer (t : Transfer)
  | setActiveTransfer (t : Option Transfer)

/-- `transferReducer` from `TransferContext.tsx` (lines 85-109).
`UPDATE_TRANSFER` maps the list, replacing the entry whose `id` matches the
payload, and replaces `activeTransfer` when its `id` matches
(`state.activeTransfer?.id === action.payload.id`, false on `null`). -/
def transferReducer (state : TransferState) (action : TransferAction) : TransferState :=
  match action with
  | .setLoading b => { state with loading := b }
  | .setError e => { state with error := e }
  | .setTransfers ts => { state with transfers := ts }
  | .addTransfer t => { state with transfers := state.transfers ++ [t] }
  | .updateTransfer p =>
      { state with
        transfers := state.transfers.map (fun t => if t.id = p.id then p else t),
        activeTransfer :=
          match state.activeTransfer with
          | some a => if a.id = p.id then some p else some a
          | none => none }
  | .setActiveTransfer t => { state with activeTransfer := t }

/-! ## Transfer creation form (`TransferForm.tsx`) -/

/-- `URLValidationResponse` from `src/frontend/src/types/index.ts`
(lines 76-81). -/
structure URLValidationResponse where
  valid : Bool
  drive_type : Option DriveType
  accessible : Bool
  error_message : Option String
deriving DecidableEq

/-- Truthiness of `validationResult?.valid`: `false` when the result is
`null` (validation never ran), the `valid` flag otherwise. -/
def isValid : Option URLValidationResponse → Bool
  | none => false
  | some r => r.valid

/-- Component state of `TransferForm.tsx` relevant to submission: the
`sourceUrl`, `validationResult` and `validating` `useState` cells.
`validating` is the boolean flag set around the awaited
`api.validateUrl(sourceUrl)` call of `handleValidateUrl` — here it also
records the URL the in-flight request was issued for (the argument
captured when the call started), `none` meaning no request is in
flight. -/
structure FormState where
  sourceUrl : String
  validationResult : Option URLValidationResponse
  validating : Option String
deriving DecidableEq

/-- Initial form state: `useState('')`, `useState<any>(null)` and
`useState(false)` (`TransferForm.tsx`, lines 24, 26, 27). -/
def initialFormState : FormState :=
  { sourceUrl := "", validationResult := none, validating := none }

/-- Outcome of `handleSubmit` (`TransferForm.tsx`, lines 52-70). -/
inductive SubmitResult
  | rejectedEmpty
  | rejectedUnvalidated
  | accepted (url : String)
deriving DecidableEq

/-- `handleSubmit` from `TransferForm.tsx` (lines 52-70): rejects an empty
URL (`!sourceUrl.trim()`), then rejects when `!validationResult?.valid`,
and only then calls `onSubmit(sourceUrl, transferMode)`. -/
def handleSubmit (s : FormState) : SubmitResult :=
  if s.sourceUrl.trim = "" then .rejectedEmpty
  else if isValid s.validationResult = false then .rejectedUnvalidated
  else .accepted s.sourceUrl

/-- The submit button guard from `TransferForm.tsx` (line 166):
`disabled={!validationResult?.valid || loading}`. -/
def submitDisabled (validationResult : Option URLValidationResponse) (loading : Bool) : Bool :=
  !(isValid validationResult) || loading

/-- Events mutating the form state, parametrized by the validation
collaborator `V` (the `api.validateUrl` backend endpoint, viewed as a
function from the URL to its validation response).  `handleValidateUrl`
(`TransferForm.tsx`, lines 30-50) is asynchronous — there is an `await`
between reading `sourceUrl` and storing the response — so it is split
into separate transitions, and the text field stays editable while a
request is in flight (only the Validate button is disabled by
`validating`):
* `changeUrl` — the `TextField` `onChange` handler (lines 96-100) stores
  the new URL and resets `validationResult` to `null`; it does not touch
  an in-flight request;
* `beginValidate` — `handleValidateUrl` up to the `await`: requires a
  non-empty trimmed URL (lines 31-34) and no request already in flight
  (the Validate button is disabled while `validating`, line 110), sets
  `validating` and issues the request for the current URL;
* `resolveValidate` — the code after the `await`: stores the
  collaborator's response for the URL the request was issued for —
  regardless of the current `sourceUrl` — and clears `validating`
  (lines 39-40, 48);
* `resolveFailure` — the `catch` branch (API error, lines 45-46): leaves
  `validationResult` untouched and clears `validating`. -/
inductive FormStep (V : String → URLValidationResponse) : FormState → FormState → Prop
  | changeUrl (s : FormState) (u : String) :
      FormStep V s { s with sourceUrl := u, validationResult := none }
  | beginValidate (s : FormState) :
      s.sourceUrl.trim ≠ "" →
      s.validating = none →
      FormStep V s { s with validating := some s.sourceUrl }
  | resolveValidate (s : FormState) (u : String) :
      s.validating = some u →
      FormStep V s { s with validationResult := some (V u), validating := none }
  | resolveFailure (s : FormState) (u : String) :
      s.validating = some u →
      FormStep V s { s with validating := none }

/-! ## File-size formatting (`TransferDetail.tsx`) -/

/-- Result of `formatFileSize`: either the literal string
`'Unknown size'`, or the interpolated `` `${number} ${unit}` `` represented
structurally as the displayed number and the unit string. -/
inductive SizeDisplay
  | unknownSize
  | sized (amount : ℚ) (unit : String)
deriving DecidableEq

/-- `Math.round` on the (nonnegative) values produced here:
round-half-up, `⌊q + 1/2⌋`. -/
def jsRound (q : ℚ) : ℤ :=
  ⌊q + 1 / 2⌋

/-- The `units` array of `formatFileSize` (`TransferDetail.tsx`,
src/unnamed/part_001 line 284). -/
def fileSizeUnits : List String :=
  ["B", "KB", "MB", "GB"]

/-- The `while (size >= 1024 && unitIndex < units.length - 1)` loop of
`formatFileSize` (lines 288-291), with the remaining iteration budget
`units.length - 1 - unitIndex` made explicit as fuel: each pass divides
`size` by 1024 and increments `unitIndex`.  Division by 1024 is exact in
IEEE-754 doubles, so `ℚ` models the JavaScript values exactly. -/
def scaleAux : ℚ → ℕ → ℕ → ℚ × ℕ
  | size, idx, 0 => (size, idx)
  | size, idx, fuel + 1 =>
      if 1024 ≤ size then scaleAux (size / 1024) (idx + 1) fuel else (size, idx)

/-- `formatFileSize` from `TransferDetail.tsx` (src/unnamed/part_001,
lines 282-294).  `!bytes` is true for `undefined` and for `0`, giving
`'Unknown size'`; otherwise the size is scaled by the loop and displayed
as `Math.round(size * 100) / 100` with the selected unit. -/
def formatFileSize : Option ℕ → SizeDisplay
  | none => .unknownSize
  | some b =>
      if b = 0 then .unknownSize
      else
        .sized ((jsRound ((scaleAux (b : ℚ) 0 3).1 * 100) : ℚ) / 100)
          (fileSizeUnits.getD (scaleAux (b : ℚ) 0 3).2 "")

/-! ## Backend core, modelled from the spec

The Transfer Orchestrator, Stage Executor, Progress Aggregator and Event
Broadcaster live in `backend/app/workflows.py`, which is not part of the
repository snapshot; the definitions below are modelled from the
specification (§3-§5), as noted on each. -/

/-- Modelled from the spec: per-file status of a File Unit,
`pending / in-progress / completed / failed` (spec §3; the backend File
Unit model in `backend/app/workflows.py` is not under `src/` — the
frontend `FileTransfer.status` field is an untyped `string`, and
`getFileStatusIcon` in `TransferDetail.tsx` switches on exactly these four
values). -/
inductive FileStatus
  | pending
  | inProgress
  | completed
  | failed
deriving DecidableEq

/-- Terminal per-file states (spec §3: "never regresses from a terminal
per-file state"): `completed` and `failed`. -/
def FileStatus.isTerminal : FileStatus → Bool
  | .completed => true
  | .failed => true
  | _ => false

/-- Modelled from the spec: a File Unit (spec §3) — name, optional size in
bytes, per-file status, bytes transferred so far, optional error
description.  Mirrors the frontend `FileTransfer` interface
(`src/frontend/src/types/index.ts`, lines 41-47) with the status typed. -/
structure FileUnit where
  file_name : String
  file_size : Option ℕ
  status : FileStatus
  bytes_transferred : ℕ
  error_message : Option String
deriving DecidableEq

/-- Modelled from the spec: the mutations the Stage Executor may apply to
one File Unit (`backend/app/workflows.py` is not under `src/`; spec §3,
§4.2, §5):
* `start` — a worker picks up a pending file;
* `chunk` — a chunk is acknowledged: bytes transferred advances (chunk
  offsets are ordered, spec §5) and never beyond the known size (spec §3);
* `complete` — an in-progress file finishes;
* `fail` — the retry budget is exhausted or a permanent failure occurs;
  the error is recorded (spec §7).
No constructor mutates a File Unit whose status is terminal (spec §3:
status transitions are monotonic). -/
inductive FStep : FileUnit → FileUnit → Prop
  | start (f : FileUnit) :
      f.status = .pending →
      FStep f { f with status := .inProgress }
  | chunk (f : FileUnit) (b : ℕ) :
      f.status = .inProgress →
      f.bytes_transferred ≤ b →
      (∀ sz, f.file_size = some sz → b ≤ sz) →
      FStep f { f with bytes_transferred := b }
  | complete (f : FileUnit) :
      f.status = .inProgress →
      FStep f { f with status := .completed }
  | fail (f : FileUnit) (e : String) :
      f.status = .pending ∨ f.status = .inProgress →
      FStep f { f with status := .failed, error_message := some e }

/-- Modelled from the spec: Orchestrator-owned job state (spec §3, §4.1) —
lifecycle status, whether the discovery stage has completed (File Units
are created in bulk when it does), the File Unit collection, and the
terminal error description. -/
structure Job where
  status : TransferStatus
  discovered : Bool
  files : List FileUnit
  error_message : Option String
deriving DecidableEq

/-- Modelled from the spec: the Transfer Orchestrator state machine
(spec §4.1) — `PENDING → SCANNING → TRANSFERRING → UPLOADING → COMPLETED`
with `FAILED` and `CANCELLED` reachable from any non-terminal state;
File Units are populated in bulk (all pending, zero bytes) when discovery
completes, and mutated one at a time by the active Stage Executor. -/
inductive JStep : Job → Job → Prop
  | startScan (j : Job) :
      j.status = .pending →
      JStep j { j with status := .scanning }
  | discover (j : Job) (fs : List FileUnit) :
      j.status = .scanning →
      j.discovered = false →
      (∀ f ∈ fs, f.status = .pending) →
      JStep j { j with status := .transferring, discovered := true, files := fs }
  | fileStep (j : Job) (i : ℕ) (f' : FileUnit) (h : i < j.files.length) :
      (j.status = .transferring ∨ j.status = .uploading) →
      FStep (j.files.get ⟨i, h⟩) f' →
      JStep j { j with files := j.files.set i f' }
  | toUploading (j : Job) :
      j.status = .transferring →
      JStep j { j with status := .uploading }
  | finish (j : Job) :
      j.status = .uploading →
      JStep j { j with status := .completed }
  | failJob (j : Job) (e : String) :
      j.status.isTerminal = false →
      JStep j { j with status := .failed, error_message := some e }
  | cancelJob (j : Job) :
      j.status.isTerminal = false →
      JStep j { j with status := .cancelled }

/-- Modelled from the spec: an execution trace of one job — at each tick
the job either takes an orchestration step or is unchanged. -/
def IsTrace (t : ℕ → Job) : Prop :=
  ∀ k, JStep (t k) (t (k + 1)) ∨ t (k + 1) = t k

/-! ### Progress Aggregator (spec §4.3) -/

/-- Count of File Units whose status is `completed`. -/
def completedCount (files : List FileUnit) : ℕ :=
  files.countP (fun f => f.status == .completed)

/-- Count of File Units whose status is `failed`. -/
def failedCount (files : List FileUnit) : ℕ :=
  files.countP (fun f => f.status == .failed)

/-- Count of File Units still pending or in progress. -/
def pendingOrInProgressCount (files : List FileUnit) : ℕ :=
  files.countP (fun f => f.status == .pending || f.status == .inProgress)

/-- Modelled from the spec: "Overall percentage = 100 × (completed file
count / total file count) when total is known and nonzero; when the
discovery stage has not yet completed, percentage is 0" (spec §4.3).  The
total is known exactly when discovery has completed (File Units are
created in bulk at that point, spec §3). -/
def overallProgress (j : Job) : ℚ :=
  if j.discovered = true ∧ j.files.length ≠ 0 then
    100 * (completedCount j.files : ℚ) / (j.files.length : ℚ)
  else 0

/-- Progress Snapshot (spec §3), mirroring the `TransferProgress`
interface of `src/frontend/src/types/index.ts` (lines 49-69) in the fields
the claims concern (the current-file field is not modelled: no claim
mentions it, and its "most-recently-mutated" selection needs timing data
the state does not carry). -/
structure ProgressSnapshot where
  status : TransferStatus
  overall_progress : ℚ
  files_completed : ℕ
  total_files : ℕ
  error_message : Option String
deriving DecidableEq

/-- Modelled from the spec: the Progress Aggregator, a "pure function of
(Job status, File Unit collection) → Progress Snapshot" (spec §4.3);
"when the discovery stage has not yet completed, percentage is 0 and
status reflects `SCANNING`". -/
def computeSnapshot (j : Job) : ProgressSnapshot :=
  { status := if j.discovered = true then j.status else .scanning
    overall_progress := overallProgress j
    files_completed := completedCount j.files
    total_files := j.files.length
    error_message := j.error_message }

/-! ### Event Broadcaster (spec §4.4) -/

/-- Modelled from the spec: a Subscription (spec §3, §4.4) to one job's
event stream.  `deliverIdx n` is the trace time whose snapshot is the
`n`-th snapshot delivered to this subscriber: deliveries are ordered and
may skip intermediate snapshots (coalescing, spec §4.4), and the first
delivery is the current snapshot at connect time ("new subscribers
immediately receive the current Progress Snapshot on connect"). -/
structure Subscription where
  connectTime : ℕ
  deliverIdx : ℕ → ℕ
  first_at_connect : deliverIdx 0 = connectTime
  mono : Monotone deliverIdx

/-- The `n`-th Progress Snapshot a subscription observes on a trace. -/
def observed (t : ℕ → Job) (s : Subscription) (n : ℕ) : ProgressSnapshot :=
  computeSnapshot (t (s.deliverIdx n))

/-- Modelled from the spec: `cancel(jobID)` (spec §4.1) — "Idempotent:
cancelling an already-cancelled or terminal job is a no-op, not an error";
otherwise the job transitions to `CANCELLED`.  The result is `Except` to
make "not an error" explicit. -/
def cancel (j : Job) : Except String Job :=
  if j.status.isTerminal = true then .ok j
  else .ok { j with status := .cancelled }

/-! ## Concrete sample data (used to instantiate the theorems) -/

/-- A File Unit that has completed. -/
def sampleFileCompleted : FileUnit :=
  { file_name := "a.pdf", file_size := some 5, status := .completed,
    bytes_transferred := 5, error_message := none }

/-- A File Unit still pending. -/
def sampleFilePending : FileUnit :=
  { file_name := "b.pdf", file_size := some 7, status := .pending,
    bytes_transferred := 0, error_message := none }

/-- A discovered, half-completed job. -/
def sampleJobHalf : Job :=
  { status := .transferring, discovered := true,
    files := [sampleFileCompleted, sampleFilePending], error_message := none }

/-- A freshly created job, before discovery. -/
def sampleJobNew : Job :=
  { status := .pending, discovered := false, files := [], error_message := none }

/-- A subscription connecting at time 0 and receiving every snapshot. -/
def sampleSubscription : Subscription :=
  { connectTime := 0, deliverIdx := id, first_at_connect := rfl, mono := monotone_id }

/-- A sample frontend transfer record with the given id. -/
def sampleTransfer (i : String) : Transfer :=
  { id := i, source_url := "https://drive.google.com/drive/folders/abc",
    drive_type := .google_drive, transfer_mode := .direct_to_notebooklm,
    status := .transferring, total_files := 2, files_completed := 1,
    current_file_name := none, current_file_progress := 0, overall_progress := 50,
    landing_zone_folder_id := none, notebooklm_notebook_id := none,
    error_message := none, created_at := "2024-01-01", started_at := none,
    completed_at := none }

/-- A sample context state holding two transfers, the first active. -/
def sampleState : TransferState :=
  { transfers := [sampleTransfer "t1", sampleTransfer "t2"],
    activeTransfer := some (sampleTransfer "t1"), loading := false, error := none }

/-- A validation collaborator that accepts exactly the URL
`"https://a"` and rejects every other URL. -/
def raceOracle : String → URLValidationResponse :=
  fun u =>
    if u = "https://a" then
      { valid := true, drive_type := some .google_drive, accessible := true,
        error_message := none }
    else
      { valid := false, drive_type := none, accessible := false,
        error_message := some "Invalid URL" }

/-! ## Helper lemmas -/

/-- No Stage Executor mutation starts from a terminal per-file state. -/
theorem fstep_not_terminal {f f' : FileUnit} (h : FStep f f') :
    f.status.isTerminal = false := by
  cases h with
  | start hp => simp [hp, FileStatus.isTerminal]
  | chunk b hp hmono hsz => simp [hp, FileStatus.isTerminal]
  | complete hp => simp [hp, FileStatus.isTerminal]
  | fail e hp => rcases hp with hp | hp <;> simp [hp, FileStatus.isTerminal]

/-- The source of a File Unit mutation is never `completed`. -/
theorem fstep_src_not_completed {f f' : FileUnit} (h : FStep f f') :
    (f.status == FileStatus.completed) = false := by
  have hterm := fstep_not_terminal h
  rw [beq_eq_false_iff_ne]
  intro hc
  rw [hc] at hterm
  simp [FileStatus.isTerminal] at hterm

/-- A File Unit mutation preserves the bytes-within-size bound. -/
theorem fstep_preserves_bytes {f f' : FileUnit} (h : FStep f f')
    (hb : ∀ sz, f.file_size = some sz → f.bytes_transferred ≤ sz) :
    ∀ sz, f'.file_size = some sz → f'.bytes_transferred ≤ sz := by
  cases h with
  | start hp => exact hb
  | chunk b hp hmono hsz => intro sz h'; exact hsz sz h'
  | complete hp => exact hb
  | fail e hp => exact hb

/-- Overwriting a list entry that fails the predicate cannot decrease the
`countP`. -/
theorem countP_le_countP_set (p : α → Bool) :
    ∀ (l : List α) (i : ℕ) (h : i < l.length) (a : α),
      p (l.get ⟨i, h⟩) = false → l.countP p ≤ (l.set i a).countP p := by
  intro l
  induction l with
  | nil => intro i h a _; simp at h
  | cons x xs ih =>
      intro i h a hp
      cases i with
      | zero =>
          simp only [List.get] at hp
          simp [List.set, List.countP_cons, hp]
      | succ n =>
          simp only [List.get] at hp
          have hn : n < xs.length := by simpa using h
          have := ih n hn a hp
          simp only [List.set, List.countP_cons]
          omega

/-- Snapshot percentages are never negative. -/
theorem overallProgress_nonneg (j : Job) : 0 ≤ overallProgress j := by
  unfold overallProgress
  split
  · positivity
  · exact le_refl 0

/-- Each orchestration step keeps the overall percentage from decreasing. -/
theorem jstep_overallProgress_le {j j' : Job} (h : JStep j j') :
    overallProgress j ≤ overallProgress j' := by
  cases h with
  | startScan _ => exact le_refl _
  | toUploading _ => exact le_refl _
  | finish _ => exact le_refl _
  | failJob _ _ => exact le_refl _
  | cancelJob _ => exact le_refl _
  | discover fs hs hd hpend =>
      have h0 : overallProgress j = 0 := by simp [overallProgress, hd]
      rw [h0]
      exact overallProgress_nonneg _
  | fileStep i f' hlen hstage hstep =>
      have hcount : completedCount j.files ≤ completedCount (j.files.set i f') :=
        countP_le_countP_set _ j.files i hlen f' (fstep_src_not_completed hstep)
      unfold overallProgress completedCount at hcount ⊢
      simp only [List.length_set]
      split
      · rename_i hcond
        have hlpos : (0 : ℚ) < (j.files.length : ℚ) := by
          exact_mod_cast Nat.pos_of_ne_zero hcond.2
        have hc : ((j.files.countP (fun f => f.status == FileStatus.completed) : ℚ)) ≤
            ((j.files.set i f').countP (fun f => f.status == FileStatus.completed) : ℚ) := by
          exact_mod_cast hcount
        gcongr
      · exact le_refl 0

/-- The percentage seen along a trace is monotone in time. -/
theorem trace_progress_mono {t : ℕ → Job} (ht : IsTrace t) :
    Monotone (fun k => overallProgress (t k)) := by
  apply monotone_nat_of_le_succ
  intro k
  rcases ht k with h | h
  · exact jstep_overallProgress_le h
  · rw [h]

/-- Every File Unit falls in exactly one of the three count buckets. -/
theorem counts_partition (l : List FileUnit) :
    completedCount l + failedCount l + pendingOrInProgressCount l = l.length := by
  induction l with
  | nil => rfl
  | cons f fs ih =>
      unfold completedCount failedCount pendingOrInProgressCount at ih ⊢
      simp only [List.countP_cons, List.length_cons]
      cases hf : f.status <;> simp <;> omega

/-- Evaluation of `String.trim` on the concrete URL `"https://a"`
(its well-founded auxiliary recursions stop at the first and last
characters, which are not whitespace). -/
theorem trim_url_a : "https://a".trim = "https://a" := by
  have h1 : Substring.takeWhileAux "https://a" ⟨9⟩ Char.isWhitespace ⟨0⟩ = ⟨0⟩ := by
    rw [Substring.takeWhileAux.eq_def]
    rw [dif_pos (by decide)]
    rw [if_neg (by decide)]
  have h2 : Substring.takeRightWhileAux "https://a" ⟨0⟩ Char.isWhitespace ⟨9⟩ = ⟨9⟩ := by
    rw [Substring.takeRightWhileAux.eq_def]
    rw [dif_pos (by decide)]
    rw [if_pos (by decide)]
  show (Substring.trim ⟨"https://a", ⟨0⟩, ⟨9⟩⟩).toString = "https://a"
  simp only [Substring.trim]
  rw [h1, h2]
  decide

/-- Evaluation of `String.trim` on the concrete URL `"https://b"`. -/
theorem trim_url_b : "https://b".trim = "https://b" := by
  have h1 : Substring.takeWhileAux "https://b" ⟨9⟩ Char.isWhitespace ⟨0⟩ = ⟨0⟩ := by
    rw [Substring.takeWhileAux.eq_def]
    rw [dif_pos (by decide)]
    rw [if_neg (by decide)]
  have h2 : Substring.takeRightWhileAux "https://b" ⟨0⟩ Char.isWhitespace ⟨9⟩ = ⟨9⟩ := by
    rw [Substring.takeRightWhileAux.eq_def]
    rw [dif_pos (by decide)]
    rw [if_pos (by decide)]
  show (Substring.trim ⟨"https://b", ⟨0⟩, ⟨9⟩⟩).toString = "https://b"
  simp only [Substring.trim]
  rw [h1, h2]
  decide

/-- The loop index never exceeds the starting index plus the fuel. -/
theorem scaleAux_idx_le (size : ℚ) (idx fuel : ℕ) :
    (scaleAux size idx fuel).2 ≤ idx + fuel := by
  induction fuel generalizing size idx with
  | zero => simp [scaleAux]
  | succ n ih =>
      simp only [scaleAux]
      split
      · exact (ih (size / 1024) (idx + 1)).trans (by omega)
      · simp

/-- The loop index never decreases. -/
theorem scaleAux_idx_ge (size : ℚ) (idx fuel : ℕ) :
    idx ≤ (scaleAux size idx fuel).2 := by
  induction fuel generalizing size idx with
  | zero => simp [scaleAux]
  | succ n ih =>
      simp only [scaleAux]
      split
      · exact (Nat.le_succ idx).trans (ih (size / 1024) (idx + 1))
      · simp

/-- The loop's final size is the input scaled down by 1024 once per
performed iteration. -/
theorem scaleAux_fst (size : ℚ) (idx fuel : ℕ) :
    (scaleAux size idx fuel).1 =
      size / 1024 ^ ((scaleAux size idx fuel).2 - idx) := by
  induction fuel generalizing size idx with
  | zero => simp [scaleAux]
  | succ n ih =>
      simp only [scaleAux]
      split
      · have hge := scaleAux_idx_ge (size / 1024) (idx + 1) n
        rw [ih (size / 1024) (idx + 1)]
        have hk : (scaleAux (size / 1024) (idx + 1) n).2 - idx =
            ((scaleAux (size / 1024) (idx + 1) n).2 - (idx + 1)) + 1 := by omega
        rw [hk, div_div, ← pow_succ']
      · simp

/-- When the loop exits before exhausting its fuel, the final size is
below 1024. -/
theorem scaleAux_lt (size : ℚ) (idx fuel : ℕ)
    (h : (scaleAux size idx fuel).2 ≠ idx + fuel) :
    (scaleAux size idx fuel).1 < 1024 := by
  induction fuel generalizing size idx with
  | zero => simp [scaleAux] at h
  | succ n ih =>
      simp only [scaleAux] at h ⊢
      split
      · rename_i hge
        refine ih (size / 1024) (idx + 1) ?_
        intro hc
        rw [if_pos hge] at h
        omega
      · rename_i hlt
        exact lt_of_not_le hlt

/-- Every unit the loop stepped past had a scaled value of at least
1024 — the chosen unit is the smallest that brings the value under
control. -/
theorem scaleAux_min (size : ℚ) (idx fuel : ℕ) :
    ∀ j, idx ≤ j → j < (scaleAux size idx fuel).2 →
      1024 ≤ size / 1024 ^ (j - idx) := by
  induction fuel generalizing size idx with
  | zero => simp [scaleAux]; omega
  | succ n ih =>
      simp only [scaleAux]
      split
      · rename_i hge
        intro j hj hlt
        rcases Nat.eq_or_lt_of_le hj with rfl | hgt
        · simpa using hge
        · have h1 : idx + 1 ≤ j := hgt
          have := ih (size / 1024) (idx + 1) j h1 hlt
          have hk : j - idx = (j - (idx + 1)) + 1 := by omega
          rw [hk, pow_succ']
          rw [div_div] at this
          calc (1024 : ℚ) ≤ size / (1024 * 1024 ^ (j - (idx + 1))) := this
            _ = size / (1024 * 1024 ^ (j - (idx + 1))) := rfl
      · simp only [Prod.snd]
        omega

/-! ## Claims -/

/-- C1: for every job and every single subscriber, the sequence of
Progress Snapshots the subscriber observes is monotonically non-decreasing
in overall percentage — if snapshot `A` is delivered before snapshot `B`
on the same subscription, `A.overall_progress ≤ B.overall_progress`. -/
theorem claim_C1_subscriber_progress_monotone (t : ℕ → Job) (ht : IsTrace t)
    (s : Subscription) (m n : ℕ) (hmn : m ≤ n) :
    (observed t s m).overall_progress ≤ (observed t s n).overall_progress :=
  trace_progress_mono ht (s.mono hmn)

/-- Instantiation of C1 on a concrete trace and subscription. -/
theorem claim_C1_witness :
    (observed (fun _ => sampleJobHalf) sampleSubscription 0).overall_progress ≤
      (observed (fun _ => sampleJobHalf) sampleSubscription 2).overall_progress :=
  claim_C1_subscriber_progress_monotone (fun _ => sampleJobHalf)
    (fun _ => Or.inr rfl) sampleSubscription 0 2 (by omega)

/-- C2: when the total file count is known (discovery done) and nonzero,
the snapshot's overall percentage equals 100 × (completed / total); every
snapshot taken before discovery completes has percentage 0 and status
`SCANNING`. -/
theorem claim_C2_progress_formula (j : Job) :
    (j.discovered = true → j.files.length ≠ 0 →
      (computeSnapshot j).overall_progress =
        100 * ((computeSnapshot j).files_completed : ℚ) /
          ((computeSnapshot j).total_files : ℚ)) ∧
    (j.discovered = false →
      (computeSnapshot j).overall_progress = 0 ∧
        (computeSnapshot j).status = .scanning) := by
  constructor
  · intro hd hn
    simp [computeSnapshot, overallProgress, hd, hn]
  · intro hd
    constructor <;> simp [computeSnapshot, overallProgress, hd]

/-- Instantiation of C2 on a half-done job and on an undiscovered job. -/
theorem claim_C2_witness :
    ((computeSnapshot sampleJobHalf).overall_progress =
      100 * ((computeSnapshot sampleJobHalf).files_completed : ℚ) /
        ((computeSnapshot sampleJobHalf).total_files : ℚ)) ∧
    ((computeSnapshot sampleJobNew).overall_progress = 0 ∧
      (computeSnapshot sampleJobNew).status = .scanning) :=
  ⟨(claim_C2_progress_formula sampleJobHalf).1 rfl (by decide),
   (claim_C2_progress_formula sampleJobNew).2 rfl⟩

/-- C3: cancel is permitted exactly on the non-terminal statuses
(`canCancel` is the complement of `isTerminal`), and cancelling a job in
a terminal status is a no-op that returns the job unchanged without an
error; on a non-terminal job it moves the status to `CANCELLED`. -/
theorem claim_C3_cancel_guard (s : TransferStatus) (j : Job) :
    (canCancel s = !s.isTerminal) ∧
    (j.status.isTerminal = true → cancel j = Except.ok j) ∧
    (j.status.isTerminal = false →
      cancel j = Except.ok { j with status := .cancelled }) := by
  refine ⟨?_, ?_, ?_⟩
  · cases s <;> rfl
  · intro h; simp [cancel, h]
  · intro h; simp [cancel, h]

/-- Instantiation of C3 on an already-cancelled job. -/
theorem claim_C3_witness :
    (canCancel .completed = !TransferStatus.completed.isTerminal) ∧
    cancel { status := .cancelled, discovered := true, files := [], error_message := none } =
      Except.ok { status := .cancelled, discovered := true, files := [],
                  error_message := none } :=
  ⟨(claim_C3_cancel_guard .completed
      { status := .cancelled, discovered := true, files := [], error_message := none }).1,
   (claim_C3_cancel_guard .completed
      { status := .cancelled, discovered := true, files := [], error_message := none }).2.1 rfl⟩

/-- C4: once discovery has completed, completed + failed +
pending-or-in-progress File Units equal the snapshot's total. -/
theorem claim_C4_counts_conservation (j : Job) (_hd : j.discovered = true) :
    (computeSnapshot j).files_completed + failedCount j.files +
      pendingOrInProgressCount j.files = (computeSnapshot j).total_files := by
  simpa [computeSnapshot] using counts_partition j.files

/-- Instantiation of C4 on a concrete discovered job. -/
theorem claim_C4_witness :
    (computeSnapshot sampleJobHalf).files_completed + failedCount sampleJobHalf.files +
      pendingOrInProgressCount sampleJobHalf.files =
      (computeSnapshot sampleJobHalf).total_files :=
  claim_C4_counts_conservation sampleJobHalf rfl

/-- C5: the first snapshot a subscriber receives is the job's current
snapshot at connect time (no wait for the next mutation); a subscriber
joining a job that is at least half complete first sees a percentage of
at least 50, never 0. -/
theorem claim_C5_first_snapshot_on_connect (t : ℕ → Job) (s : Subscription) :
    observed t s 0 = computeSnapshot (t s.connectTime) ∧
    ((t s.connectTime).discovered = true →
      (t s.connectTime).files.length ≠ 0 →
      (t s.connectTime).files.length ≤ 2 * completedCount (t s.connectTime).files →
      50 ≤ (observed t s 0).overall_progress ∧
        (observed t s 0).overall_progress ≠ 0) := by
  have hobs : observed t s 0 = computeSnapshot (t s.connectTime) := by
    unfold observed; rw [s.first_at_connect]
  refine ⟨hobs, ?_⟩
  intro hd hn hhalf
  rw [hobs]
  have hlpos : (0 : ℚ) < ((t s.connectTime).files.length : ℚ) := by
    exact_mod_cast Nat.pos_of_ne_zero hn
  have hcast : ((t s.connectTime).files.length : ℚ) ≤
      2 * (completedCount (t s.connectTime).files : ℚ) := by exact_mod_cast hhalf
  have hval : (computeSnapshot (t s.connectTime)).overall_progress =
      100 * (completedCount (t s.connectTime).files : ℚ) /
        ((t s.connectTime).files.length : ℚ) := by
    simp [computeSnapshot, overallProgress, hd, hn]
  have h50 : (50 : ℚ) ≤ (computeSnapshot (t s.connectTime)).overall_progress := by
    rw [hval, le_div_iff₀ hlpos]
    linarith
  refine ⟨h50, ?_⟩
  intro h0
  rw [h0] at h50
  norm_num at h50

/-- Instantiation of C5: a subscriber connecting to the half-done job. -/
theorem claim_C5_witness :
    50 ≤ (observed (fun _ => sampleJobHalf) sampleSubscription 0).overall_progress ∧
      (observed (fun _ => sampleJobHalf) sampleSubscription 0).overall_progress ≠ 0 :=
  (claim_C5_first_snapshot_on_connect (fun _ => sampleJobHalf) sampleSubscription).2
    rfl (by decide) (by decide)

/-- C6: the claim fails on the code — `handleValidateUrl` is asynchronous
and the text field stays editable while a request is in flight, so the
form can accept a URL that was never validated.  Concretely: starting
from the initial state, the user enters `https://a`, starts validation,
edits the field to `https://b` while the request is pending, and the
stale (valid) response for `https://a` then lands.  The resulting state
is reachable, `handleSubmit` accepts `https://b` there even though the
collaborator rejects `https://b`, and the submit button is enabled. -/
theorem claim_C6_stale_validation_race :
    Relation.ReflTransGen (FormStep raceOracle) initialFormState
      { sourceUrl := "https://b", validationResult := some (raceOracle "https://a"),
        validating := none } ∧
    handleSubmit
      { sourceUrl := "https://b", validationResult := some (raceOracle "https://a"),
        validating := none } = .accepted "https://b" ∧
    (raceOracle "https://b").valid = false ∧
    submitDisabled (some (raceOracle "https://a")) false = false := by
  refine ⟨?_, ?_, by decide, by decide⟩
  · have step1 : FormStep raceOracle initialFormState
        { sourceUrl := "https://a", validationResult := none, validating := none } :=
      FormStep.changeUrl initialFormState "https://a"
    have step2 : FormStep raceOracle
        { sourceUrl := "https://a", validationResult := none, validating := none }
        { sourceUrl := "https://a", validationResult := none,
          validating := some "https://a" } :=
      FormStep.beginValidate _ (by rw [trim_url_a]; decide) rfl
    have step3 : FormStep raceOracle
        { sourceUrl := "https://a", validationResult := none,
          validating := some "https://a" }
        { sourceUrl := "https://b", validationResult := none,
          validating := some "https://a" } :=
      FormStep.changeUrl _ "https://b"
    have step4 : FormStep raceOracle
        { sourceUrl := "https://b", validationResult := none,
          validating := some "https://a" }
        { sourceUrl := "https://b", validationResult := some (raceOracle "https://a"),
          validating := none } :=
      FormStep.resolveValidate _ "https://a" rfl
    exact (((Relation.ReflTransGen.single step1).tail step2).tail step3).tail step4
  · unfold handleSubmit
    rw [if_neg (by rw [trim_url_b]; decide)]
    rw [if_neg (by decide)]

/-- C7: along any sequence of File Unit mutations, bytes transferred never
exceed a known size, and the status never changes once terminal. -/
theorem claim_C7_fileunit_invariants (f f' : FileUnit)
    (hchain : Relation.ReflTransGen FStep f f') :
    ((∀ sz, f.file_size = some sz → f.bytes_transferred ≤ sz) →
      ∀ sz, f'.file_size = some sz → f'.bytes_transferred ≤ sz) ∧
    (f.status.isTerminal = true → f'.status = f.status) := by
  induction hchain with
  | refl => exact ⟨fun hb => hb, fun _ => rfl⟩
  | tail hab hbc ih =>
      refine ⟨fun hb => fstep_preserves_bytes hbc (ih.1 hb), fun hterm => ?_⟩
      have hmid := ih.2 hterm
      have hnt := fstep_not_terminal hbc
      rw [hmid, hterm] at hnt
      simp at hnt

/-- Instantiation of C7: a concrete in-progress file completing keeps its
bytes within the known size. -/
theorem claim_C7_witness :
    (FileUnit.mk "a.pdf" (some 10) FileStatus.completed 0 none).bytes_transferred ≤ 10 :=
  (claim_C7_fileunit_invariants
      (FileUnit.mk "a.pdf" (some 10) FileStatus.inProgress 0 none)
      (FileUnit.mk "a.pdf" (some 10) FileStatus.completed 0 none)
      (Relation.ReflTransGen.single
        (FStep.complete (FileUnit.mk "a.pdf" (some 10) FileStatus.inProgress 0 none) rfl))).1
    (fun sz _ => Nat.zero_le sz) 10 rfl

/-- C8: every File Unit's status is one of exactly the four values
pending, in-progress, completed, failed. -/
theorem claim_C8_status_exhaustive (f : FileUnit) :
    f.status = .pending ∨ f.status = .inProgress ∨ f.status = .completed ∨
      f.status = .failed := by
  cases h : f.status <;> simp

/-- C9: the reducer's `UPDATE_TRANSFER` replaces exactly the transfers
whose id matches the payload (all others and the list length are
unchanged), and replaces `activeTransfer` if and only if its id matches;
`loading` and `error` are untouched. -/
theorem claim_C9_update_transfer_frame (s : TransferState) (p : Transfer) :
    (transferReducer s (.updateTransfer p)).transfers.length = s.transfers.length ∧
    (∀ i : ℕ, (transferReducer s (.updateTransfer p)).transfers[i]? =
      (s.transfers[i]?).map (fun t => if t.id = p.id then p else t)) ∧
    (s.activeTransfer = none →
      (transferReducer s (.updateTransfer p)).activeTransfer = none) ∧
    (∀ a, s.activeTransfer = some a →
      (transferReducer s (.updateTransfer p)).activeTransfer =
        if a.id = p.id then some p else some a) ∧
    (transferReducer s (.updateTransfer p)).loading = s.loading ∧
    (transferReducer s (.updateTransfer p)).error = s.error := by
  refine ⟨?_, ?_, ?_, ?_, rfl, rfl⟩
  · simp [transferReducer]
  · intro i; simp [transferReducer, List.getElem?_map]
  · intro h; simp [transferReducer, h]
  · intro a ha; simp [transferReducer, ha]

/-- Instantiation of C9 on a concrete state whose active transfer matches
the payload. -/
theorem claim_C9_witness :
    (transferReducer sampleState (.updateTransfer (sampleTransfer "t1"))).activeTransfer =
      (if (sampleTransfer "t1").id = (sampleTransfer "t1").id
        then some (sampleTransfer "t1") else some (sampleTransfer "t1")) :=
  (claim_C9_update_transfer_frame sampleState (sampleTransfer "t1")).2.2.2.1
    (sampleTransfer "t1") rfl

/-- C10 (as stated) is false: at 1073741823 = 2^30 - 1 bytes the code
displays `1024 MB` — the unit is not GB yet the displayed (rounded)
number is not less than 1024. -/
theorem claim_C10_counterexample :
    formatFileSize (some 1073741823) = SizeDisplay.sized 1024 "MB" ∧
      ¬((1024 : ℚ) < 1024) ∧ "MB" ≠ "GB" := by
  refine ⟨?_, by norm_num, by decide⟩
  have h1 : scaleAux ((1073741823 : ℕ) : ℚ) 0 3 = ((1073741823 : ℚ) / 1048576, 2) := by
    norm_num [scaleAux]
  have h2 : jsRound ((26843545575 : ℚ) / 262144) = 102400 := by
    unfold jsRound
    rw [Int.floor_eq_iff]
    constructor <;> norm_num
  simp only [formatFileSize, h1]
  norm_num [h2, fileSizeUnits]

/-- C10 (amended): `formatFileSize` yields `Unknown size` for an absent or
zero byte count; for a positive count it scales by successive divisions by
1024 into the smallest unit among B, KB, MB, GB whose scaled value (before
rounding) is below 1024 — the pre-rounding value is below 1024 whenever
the unit is not GB — and displays that value rounded to two decimals
(which can round up to exactly 1024). -/
theorem claim_C10_format_file_size (b : ℕ) (hb : 0 < b) :
    formatFileSize none = .unknownSize ∧
    formatFileSize (some 0) = .unknownSize ∧
    formatFileSize (some b) =
      .sized ((jsRound ((scaleAux (b : ℚ) 0 3).1 * 100) : ℚ) / 100)
        (fileSizeUnits.getD (scaleAux (b : ℚ) 0 3).2 "") ∧
    (scaleAux (b : ℚ) 0 3).1 = (b : ℚ) / 1024 ^ (scaleAux (b : ℚ) 0 3).2 ∧
    (scaleAux (b : ℚ) 0 3).2 ≤ 3 ∧
    ((scaleAux (b : ℚ) 0 3).2 ≠ 3 → (scaleAux (b : ℚ) 0 3).1 < 1024) ∧
    (∀ j, j < (scaleAux (b : ℚ) 0 3).2 → 1024 ≤ (b : ℚ) / 1024 ^ j) := by
  refine ⟨rfl, rfl, ?_, ?_, scaleAux_idx_le _ 0 3, ?_, ?_⟩
  · simp [formatFileSize, hb.ne']
  · have := scaleAux_fst (b : ℚ) 0 3
    simpa using this
  · intro hne
    exact scaleAux_lt _ 0 3 (by simpa using hne)
  · intro j hj
    have := scaleAux_min (b : ℚ) 0 3 j (Nat.zero_le j) hj
    simpa using this

/-- Instantiation of the amended C10 at 2048 bytes. -/
theorem claim_C10_witness :
    formatFileSize (some 2048) =
      .sized ((jsRound ((scaleAux ((2048 : ℕ) : ℚ) 0 3).1 * 100) : ℚ) / 100)
        (fileSizeUnits.getD (scaleAux ((2048 : ℕ) : ℚ) 0 3).2 "") :=
  (claim_C10_format_file_size 2048 (by decide)).2.2.1

end FTransport
